import Mathlib

/-!
Verification of the schema-compare result panel
(`SchemaCompareResult` in `src/vs/workbench/common/contextkeys.ts`).

The difference tree, its display flattening (`getAllDifferences`), the
recursive script aggregation (`getAggregatedScript`), the panel state
machine (`execute` / `reExecute` and the button handlers), and the
generate-script default filename are embedded as executable Lean
definitions, and the specified properties are proved about them.
-/

namespace SchemaCompare

/-- `azdata.SchemaDifferenceType`: the panel only distinguishes `Object`
from everything else. -/
inductive SchemaDifferenceType where
  | Object
  | Other
deriving DecidableEq

/-- `azdata.SchemaUpdateAction`: the three update actions used by the
action map built in the constructor. -/
inductive SchemaUpdateAction where
  | Delete
  | Change
  | Add
deriving DecidableEq

/-- `azdata.DiffEntry`: one comparison finding, with nullable display
values, nullable per-side scripts, and an ordered list of children. -/
inductive DiffEntry where
  | mk (differenceType : SchemaDifferenceType) (name : String)
      (sourceValue : Option String) (targetValue : Option String)
      (updateAction : SchemaUpdateAction)
      (sourceScript : Option String) (targetScript : Option String)
      (children : List DiffEntry)

def DiffEntry.differenceType : DiffEntry → SchemaDifferenceType
  | .mk t _ _ _ _ _ _ _ => t

def DiffEntry.name : DiffEntry → String
  | .mk _ n _ _ _ _ _ _ => n

def DiffEntry.sourceValue : DiffEntry → Option String
  | .mk _ _ sv _ _ _ _ _ => sv

def DiffEntry.targetValue : DiffEntry → Option String
  | .mk _ _ _ tv _ _ _ _ => tv

def DiffEntry.updateAction : DiffEntry → SchemaUpdateAction
  | .mk _ _ _ _ ua _ _ _ => ua

def DiffEntry.sourceScript : DiffEntry → Option String
  | .mk _ _ _ _ _ ss _ _ => ss

def DiffEntry.targetScript : DiffEntry → Option String
  | .mk _ _ _ _ _ _ ts _ => ts

def DiffEntry.children : DiffEntry → List DiffEntry
  | .mk _ _ _ _ _ _ _ cs => cs

/-- JavaScript string coercion of a nullable string, as performed by
`script += x`: a null value is rendered as the four-character text
"null". -/
def jsStringOfNullable : Option String → String
  | none => "null"
  | some s => s

/-- The ternary `getSourceScript ? diffEntry.sourceScript :
diffEntry.targetScript` inside `getAggregatedScript`. -/
def scriptSide (d : DiffEntry) (getSourceScript : Bool) : Option String :=
  if getSourceScript then d.sourceScript else d.targetScript

/-- A node's own contribution to the aggregate: the chosen side's script
field after the `+=` string coercion. -/
def ownScriptText (d : DiffEntry) (getSourceScript : Bool) : String :=
  jsStringOfNullable (scriptSide d getSourceScript)

mutual

/-- Body of `getAggregatedScript` for a non-null entry: start from the
coerced own script and fold over the children in order, appending each
child's aggregate unless it is exactly the string "null". The recursive
call in the source goes through the null check again, but children are
never null, so it lands back in this body. -/
def aggregateEntry (getSourceScript : Bool) : DiffEntry → String
  | .mk _ _ _ _ _ ss ts children =>
    aggregateChildren getSourceScript children
      ("" ++ jsStringOfNullable (if getSourceScript then ss else ts))

/-- The `diffEntry.children.forEach` loop of `getAggregatedScript`,
threading the accumulated `script` variable. -/
def aggregateChildren (getSourceScript : Bool) : List DiffEntry → String → String
  | [], script => script
  | child :: rest, script =>
    let childScript := aggregateEntry getSourceScript child
    aggregateChildren getSourceScript rest
      (if childScript ≠ "null" then script ++ childScript else script)

end

/-- `SchemaCompareResult.getAggregatedScript(diffEntry, getSourceScript)`:
the `script` variable starts as the empty string and is only touched when
`diffEntry !== null`. -/
def getAggregatedScript (diffEntry : Option DiffEntry) (getSourceScript : Bool) : String :=
  match diffEntry with
  | none => ""
  | some d => aggregateEntry getSourceScript d

/-- One table row, as pushed by `getAllDifferences`: a four-cell array
whose cells may hold the JS null of `sourceValue` / `targetValue`. -/
abbrev Row := List (Option String)

/-- The `SchemaCompareActionMap` filled in the constructor with the
localized default strings for the three update actions. -/
def schemaCompareActionMap : SchemaUpdateAction → String
  | .Delete => "Delete"
  | .Change => "Change"
  | .Add => "Add"

/-- `SchemaCompareResult.getAllDifferences`: scan the top-level
differences in order and push one row per node that has `differenceType
=== Object` and a non-null `sourceValue` or `targetValue`. Children are
never visited. -/
def getAllDifferences (differences : List DiffEntry) : List Row :=
  differences.foldl (fun data difference =>
    if difference.differenceType = SchemaDifferenceType.Object then
      if difference.sourceValue ≠ none ∨ difference.targetValue ≠ none then
        data ++ [[some difference.name, difference.sourceValue,
          some (schemaCompareActionMap difference.updateAction), difference.targetValue]]
      else data
    else data) []

/-- The row filter of `getAllDifferences`, as one boolean predicate. -/
def qualifies (d : DiffEntry) : Bool :=
  decide (d.differenceType = SchemaDifferenceType.Object ∧
    (d.sourceValue ≠ none ∨ d.targetValue ≠ none))

/-- The row pushed by `getAllDifferences` for one qualifying node. -/
def displayRow (d : DiffEntry) : Row :=
  [some d.name, d.sourceValue, some (schemaCompareActionMap d.updateAction), d.targetValue]

/-- The column titles passed to `differencesTable.updateProperties` in
`execute`, in display order (localized default strings). -/
def resultTableColumns : List String :=
  ["Type", "Source Name", "Action", "Target Name"]

/-- The widgets that `execute` / `reExecute` add to and remove from the
panel's outer flex container. -/
inductive PanelItem where
  | toolbar
  | sourceTargetLayout
  | loader
  | splitView
  | noDifferencesLabel
deriving DecidableEq

/-- `azdata.SchemaCompareResult` as returned by the provider's
`schemaCompare` call. -/
structure ComparisonResult where
  success : Bool
  errorMessage : Option String
  differences : List DiffEntry
  operationId : String

/-- The observable state of the panel: flex-container contents, diff
editor panes, table data and selection, the enabled flags of the three
toolbar buttons, the endpoint names and kinds, the error messages shown
so far, and how many times `execute` has been invoked. -/
structure PanelState where
  flexItems : List PanelItem
  diffContentLeft : String
  diffContentRight : String
  tableData : List Row
  selectedRows : Option (List Nat)
  compareEnabled : Bool
  switchEnabled : Bool
  generateScriptEnabled : Bool
  sourceName : String
  targetName : String
  sourceIsDatabase : Bool
  targetIsDatabase : Bool
  errorMessages : List String
  executeCalls : Nat

/-- The state set up by `registerContent` and the three `create*Button`
helpers: loader shown, diff panes holding the newline sentinel, all
three buttons created with `enabled: false`. -/
def initialPanelState (sourceName targetName : String)
    (sourceIsDatabase targetIsDatabase : Bool) : PanelState where
  flexItems := [.toolbar, .sourceTargetLayout, .loader]
  diffContentLeft := "\n"
  diffContentRight := "\n"
  tableData := []
  selectedRows := none
  compareEnabled := false
  switchEnabled := false
  generateScriptEnabled := false
  sourceName := sourceName
  targetName := targetName
  sourceIsDatabase := sourceIsDatabase
  targetIsDatabase := targetIsDatabase
  errorMessages := []
  executeCalls := 0

/-- The message `localize('schemaCompare.compareErrorMessage', "Schema
Compare failed '{0}'", ...)` with the JS-truthiness fallback to
"Unknown" (null, undefined and the empty string are falsy). -/
def compareErrorText (errorMessage : Option String) : String :=
  "Schema Compare failed '" ++
    (match errorMessage with
      | some s => if s = "" then "Unknown" else s
      | none => "Unknown") ++ "'"

/-- `SchemaCompareResult.execute` after the provider call resolved to
`comparisonResult` (`none` models a null/undefined result). The source
has no early return on failure: it shows the error message and then
keeps going — builds the rows, removes the loader, enables the buttons
and adds the result surface. On a null result the message interpolation
itself dereferences the null and throws. -/
def executeModel (comparisonResult : Option ComparisonResult) (st : PanelState) :
    Except String PanelState :=
  match comparisonResult with
  | none => Except.error "TypeError: comparisonResult is null"
  | some r =>
    let st1 := if !r.success then
        { st with errorMessages := st.errorMessages ++ [compareErrorText r.errorMessage] }
      else st
    let st2 := { st1 with tableData := getAllDifferences r.differences }
    let st3 := { st2 with flexItems := st2.flexItems.filter (fun i => i != PanelItem.loader) }
    let st4 := { st3 with switchEnabled := true, compareEnabled := true }
    let st5 := if st4.targetIsDatabase then { st4 with generateScriptEnabled := true } else st4
    let st6 := if r.differences.length > 0 then
        { st5 with flexItems := st5.flexItems ++ [PanelItem.splitView] }
      else
        { st5 with flexItems := st5.flexItems ++ [PanelItem.noDifferencesLabel] }
    Except.ok st6

/-- `SchemaCompareResult.reExecute`: remove the result surfaces, show
the loader, reset both diff panes to the newline sentinel, clear the
row selection, disable the three buttons, then call `execute` (modelled
by bumping the invocation counter). -/
def reExecuteModel (st : PanelState) : PanelState :=
  let st1 := { st with flexItems := st.flexItems.filter (fun i => i != PanelItem.splitView) }
  let st2 := { st1 with flexItems := st1.flexItems.filter (fun i => i != PanelItem.noDifferencesLabel) }
  let st3 := { st2 with flexItems := st2.flexItems ++ [PanelItem.loader] }
  let st4 := { st3 with diffContentLeft := "\n", diffContentRight := "\n" }
  let st5 := { st4 with selectedRows := none }
  let st6 := { st5 with
    compareEnabled := false, switchEnabled := false, generateScriptEnabled := false }
  { st6 with executeCalls := st6.executeCalls + 1 }

/-- The compare button's `onDidClick` handler: it just calls
`reExecute`. -/
def compareButtonClick (st : PanelState) : PanelState :=
  reExecuteModel st

/-- The switch-direction button's `onDidClick` handler: swap source and
target, then call `reExecute`. -/
def switchButtonClick (st : PanelState) : PanelState :=
  reExecuteModel { st with
    sourceName := st.targetName, targetName := st.sourceName,
    sourceIsDatabase := st.targetIsDatabase, targetIsDatabase := st.sourceIsDatabase }

/-- The fields of a JavaScript `Date` value that the generate-script
handler reads, with the calendar (one-based) month. -/
structure JSDate where
  year : Nat
  month : Nat
  day : Nat
  hour : Nat
  minute : Nat

/-- `Date.prototype.getMonth` returns the zero-based month. -/
def JSDate.getMonth (d : JSDate) : Nat := d.month - 1

/-- The default save-dialog filename built in the generate-script
button's `onDidClick` handler:
`targetName + '_Update_' + datetime + '.sql'` with
`datetime = getFullYear() + '-' + (getMonth() + 1) + '-' + getDate()
+ '-' + getHours() + '-' + getMinutes()`. -/
def defaultScriptFileName (targetName : String) (now : JSDate) : String :=
  let datetime := toString now.year ++ "-" ++ toString (now.getMonth + 1) ++ "-" ++
    toString now.day ++ "-" ++ toString now.hour ++ "-" ++ toString now.minute
  targetName ++ "_Update_" ++ datetime ++ ".sql"

/-- The scenario node of the spec: an Object-type difference named
"Table1" with a source value, a null target value, a Delete action, a
source script, a null target script, and no children. -/
def table1Entry : DiffEntry :=
  .mk SchemaDifferenceType.Object "Table1" (some "CREATE TABLE T1") none
    SchemaUpdateAction.Delete (some "CREATE TABLE T1;") none []

/-- A childless node with both script fields null. -/
def nullScriptLeaf : DiffEntry :=
  .mk SchemaDifferenceType.Object "c" none none SchemaUpdateAction.Add none none []

/-- A failed provider result that still carries a difference list. -/
def failedComparison : ComparisonResult :=
  { success := false, errorMessage := some "boom",
    differences := [table1Entry], operationId := "op1" }

/-- A panel in the Loading state whose target endpoint is a database. -/
def loadingPanelW : PanelState :=
  initialPanelState "src" "tgt" false true

/-- The state `executeModel` produces from `loadingPanelW` on the
failed comparison above. -/
def failedRunPanelW : PanelState :=
  { loadingPanelW with
    flexItems := [.toolbar, .sourceTargetLayout, .splitView],
    tableData := [[some "Table1", some "CREATE TABLE T1", some "Delete", none]],
    compareEnabled := true, switchEnabled := true, generateScriptEnabled := true,
    errorMessages := ["Schema Compare failed 'boom'"] }

/-! ## Helper lemmas -/

theorem string_append_assoc (a b c : String) : a ++ b ++ c = a ++ (b ++ c) := by
  apply String.ext
  simp [String.data_append]

theorem string_join_nil : String.join [] = "" := rfl

theorem string_join_cons (s : String) (l : List String) :
    String.join (s :: l) = s ++ String.join l := by
  apply String.ext
  simp [String.join_eq, String.data_append]

/-- The `forEach` accumulation of `getAggregatedScript` equals the
accumulator followed by the join of the child aggregates from which the
exact string "null" has been filtered out. -/
theorem aggregateChildren_eq (b : Bool) (l : List DiffEntry) (acc : String) :
    aggregateChildren b l acc =
      acc ++ String.join ((l.map (aggregateEntry b)).filter (fun s => decide (s ≠ "null"))) := by
  induction l generalizing acc with
  | nil => simp [aggregateChildren, string_join_nil, String.append_empty]
  | cons c rest ih =>
    by_cases h : aggregateEntry b c = "null"
    · simp [aggregateChildren, h, ih]
    · simp [aggregateChildren, h, ih, string_join_cons, string_append_assoc]

/-- Closed form of `getAggregatedScript` on a non-null node: the coerced
own script followed by the children's aggregates in order, skipping any
aggregate equal to the string "null". -/
theorem getAggregatedScript_eq_join (d : DiffEntry) (b : Bool) :
    getAggregatedScript (some d) b =
      ownScriptText d b ++
        String.join ((d.children.map (fun c => getAggregatedScript (some c) b)).filter
          (fun s => decide (s ≠ "null"))) := by
  cases d with
  | mk t n sv tv ua ss ts cs =>
    show aggregateEntry b (.mk t n sv tv ua ss ts cs) = _
    rw [aggregateEntry, aggregateChildren_eq, String.empty_append]
    rfl

/-- The `forEach`/push loop of `getAllDifferences`, generalized over the
accumulator, equals filter-then-map over the input. -/
theorem getAllDifferences_aux (l : List DiffEntry) (acc : List Row) :
    List.foldl (fun data difference =>
      if difference.differenceType = SchemaDifferenceType.Object then
        if difference.sourceValue ≠ none ∨ difference.targetValue ≠ none then
          data ++ [[some difference.name, difference.sourceValue,
            some (schemaCompareActionMap difference.updateAction), difference.targetValue]]
        else data
      else data) acc l = acc ++ (l.filter qualifies).map displayRow := by
  induction l generalizing acc with
  | nil => simp
  | cons d rest ih =>
    rw [List.foldl_cons]
    by_cases h1 : d.differenceType = SchemaDifferenceType.Object
    · by_cases h2 : d.sourceValue ≠ none ∨ d.targetValue ≠ none
      · simp [h1, h2, ih, qualifies, displayRow, List.filter_cons, List.append_assoc]
      · simp [h1, h2, ih, qualifies, List.filter_cons]
    · simp [h1, ih, qualifies, List.filter_cons]

/-- `getAllDifferences` is exactly filter-then-map over the top-level
difference list. -/
theorem getAllDifferences_eq (differences : List DiffEntry) :
    getAllDifferences differences = (differences.filter qualifies).map displayRow := by
  have h := getAllDifferences_aux differences []
  simpa [getAllDifferences] using h

/-- Everything `reExecute` guarantees about the state it hands to the
next `execute` call. -/
theorem reExecuteModel_spec (st : PanelState) :
    PanelItem.splitView ∉ (reExecuteModel st).flexItems ∧
    PanelItem.noDifferencesLabel ∉ (reExecuteModel st).flexItems ∧
    PanelItem.loader ∈ (reExecuteModel st).flexItems ∧
    (reExecuteModel st).diffContentLeft = "\n" ∧
    (reExecuteModel st).diffContentRight = "\n" ∧
    (reExecuteModel st).selectedRows = none ∧
    (reExecuteModel st).compareEnabled = false ∧
    (reExecuteModel st).switchEnabled = false ∧
    (reExecuteModel st).generateScriptEnabled = false ∧
    (reExecuteModel st).executeCalls = st.executeCalls + 1 := by
  refine ⟨?_, ?_, ?_, rfl, rfl, rfl, rfl, rfl, rfl, rfl⟩ <;>
    simp [reExecuteModel, List.mem_filter, List.mem_append]

/-- After a completed `execute`, the generate-script flag is true when
the target endpoint is a database and otherwise keeps its previous
value (the source has no else branch). -/
theorem executeModel_generate (r : ComparisonResult) (st st' : PanelState)
    (h : executeModel (some r) st = Except.ok st') :
    st'.generateScriptEnabled = (st.targetIsDatabase || st.generateScriptEnabled) := by
  simp only [executeModel, Except.ok.injEq] at h
  subst h
  by_cases hdb : st.targetIsDatabase <;> by_cases hlen : r.differences.length > 0 <;>
    cases hsucc : r.success <;> simp [hdb, hlen, hsucc]

/-! ## Claim theorems -/

/-- Claim C1, counterexample: `getAggregatedScript` applied to a null
node returns the empty string on both sides, and the empty string is
not the single-newline sentinel the claim names. -/
theorem aggregate_null_node_not_newline :
    getAggregatedScript none true = "" ∧ getAggregatedScript none false = "" ∧
      ("" : String) ≠ "\n" :=
  ⟨rfl, rfl, by decide⟩

/-- Claim C1, amended: for every side, calling the script aggregation
with a null/absent node returns the empty string (the newline sentinel
is supplied separately by the row-selection handler, not by the
aggregation). -/
theorem aggregate_null_node_empty (getSourceScript : Bool) :
    getAggregatedScript none getSourceScript = "" := rfl

/-- Claim C2: for every non-null node and side, the aggregate is the
node's own (coerced) script for that side followed, in child order, by
the recursive aggregate of each child, except that a child whose
aggregate is exactly the string "null" contributes nothing. -/
theorem aggregate_preorder_skip_null_children (d : DiffEntry) (getSourceScript : Bool) :
    getAggregatedScript (some d) getSourceScript =
      ownScriptText d getSourceScript ++
        String.join
          ((d.children.map (fun child => getAggregatedScript (some child) getSourceScript)).filter
            (fun s => decide (s ≠ "null"))) :=
  getAggregatedScript_eq_join d getSourceScript

/-- Claim C3: a node whose script field for the chosen side is null
contributes the literal text "null"; in particular a childless such
node aggregates to exactly "null", and a parent holding it as its only
child receives no contribution from it. -/
theorem null_script_leaf_aggregates_null_text (d : DiffEntry) (b : Bool)
    (hscript : scriptSide d b = none) (hleaf : d.children = []) :
    getAggregatedScript (some d) b = "null" ∧
      ∀ (t : SchemaDifferenceType) (n : String) (sv tv : Option String)
        (ua : SchemaUpdateAction) (ss ts : Option String),
        getAggregatedScript (some (.mk t n sv tv ua ss ts [d])) b =
          ownScriptText (.mk t n sv tv ua ss ts [d]) b := by
  have hself : getAggregatedScript (some d) b = "null" := by
    rw [getAggregatedScript_eq_join, hleaf, ownScriptText, hscript]
    simp [jsStringOfNullable, string_join_nil, String.append_empty]
  refine ⟨hself, fun t n sv tv ua ss ts => ?_⟩
  rw [getAggregatedScript_eq_join]
  simp [DiffEntry.children, hself, string_join_nil, String.append_empty]

/-- Claim C3, witness: the childless node with null scripts satisfies
the hypotheses and aggregates to the text "null" on the source side. -/
theorem null_script_leaf_aggregates_null_text_witness :
    scriptSide nullScriptLeaf true = none ∧ nullScriptLeaf.children = [] ∧
      getAggregatedScript (some nullScriptLeaf) true = "null" :=
  ⟨rfl, rfl, (null_script_leaf_aggregates_null_text nullScriptLeaf true rfl rfl).1⟩

/-- Claim C4: for every node with no children, the aggregate for either
side is exactly the node's own script contribution for that side. -/
theorem aggregate_childless_identity (d : DiffEntry) (b : Bool) (h : d.children = []) :
    getAggregatedScript (some d) b = ownScriptText d b := by
  rw [getAggregatedScript_eq_join, h]
  simp [string_join_nil, String.append_empty]

/-- Claim C4, witness: the spec's Table1 scenario node has no children
and its source-side aggregate is exactly its source script. -/
theorem aggregate_childless_identity_witness :
    table1Entry.children = [] ∧
      getAggregatedScript (some table1Entry) true = "CREATE TABLE T1;" ∧
      ownScriptText table1Entry true = "CREATE TABLE T1;" :=
  ⟨rfl, by rw [aggregate_childless_identity table1Entry true rfl]; rfl, rfl⟩

/-- Claim C5: `getAllDifferences` emits, in input order, exactly one
row `[name, sourceValue, actionLabel, targetValue]` per top-level node
of Object type with a non-null source or target value, never recursing
into children; the action labels are Delete, Change and Add; the empty
input gives the empty row list and the row count equals the count of
qualifying top-level nodes. -/
theorem flatten_one_row_per_qualifying_entry :
    (∀ differences : List DiffEntry,
        getAllDifferences differences =
          (differences.filter qualifies).map (fun d =>
            [some d.name, d.sourceValue, some (schemaCompareActionMap d.updateAction),
              d.targetValue]) ∧
        (getAllDifferences differences).length = differences.countP qualifies) ∧
      getAllDifferences [] = [] ∧
      schemaCompareActionMap SchemaUpdateAction.Delete = "Delete" ∧
      schemaCompareActionMap SchemaUpdateAction.Change = "Change" ∧
      schemaCompareActionMap SchemaUpdateAction.Add = "Add" := by
  refine ⟨fun differences => ⟨getAllDifferences_eq differences, ?_⟩, rfl, rfl, rfl, rfl⟩
  rw [getAllDifferences_eq, List.length_map]
  exact (List.countP_eq_length_filter _ _).symm

/-- Claim C6, counterexample: the first display column is titled
"Type", but the first cell of the row emitted for the Table1 node holds
the node's name "Table1" — neither a null value nor the empty string,
so the Type column is not empty. -/
theorem type_column_nonempty_counterexample :
    resultTableColumns.headD "" = "Type" ∧
      getAllDifferences [table1Entry] =
        [[some "Table1", some "CREATE TABLE T1", some "Delete", none]] ∧
      (some "Table1" : Option String) ≠ none ∧
      (some "Table1" : Option String) ≠ some "" :=
  ⟨rfl, rfl, by decide, by decide⟩

/-- Claim C6, amended: the cell paired with the Type column in every
emitted row holds the qualifying difference's name (the row supplies no
separate type value, so the columns are shifted, not empty). -/
theorem type_column_holds_entry_name (differences : List DiffEntry) (row : Row)
    (h : row ∈ getAllDifferences differences) :
    ∃ d, d ∈ differences ∧ qualifies d = true ∧ row.headD none = some d.name := by
  rw [getAllDifferences_eq] at h
  rcases List.mem_map.mp h with ⟨d, hd, rfl⟩
  exact ⟨d, (List.mem_filter.mp hd).1, (List.mem_filter.mp hd).2, rfl⟩

/-- Claim C6, witness: the Table1 row is emitted and its first cell
holds the name of its source node. -/
theorem type_column_holds_entry_name_witness :
    ([some "Table1", some "CREATE TABLE T1", some "Delete", none] : Row) ∈
        getAllDifferences [table1Entry] ∧
      ∃ d, d ∈ [table1Entry] ∧ qualifies d = true ∧
        ([some "Table1", some "CREATE TABLE T1", some "Delete", none] : Row).headD none =
          some d.name :=
  ⟨by decide, type_column_holds_entry_name [table1Entry] _ (by decide)⟩

/-- Claim C7, code behavior at the failing input: on a provider result
with `success = false` that still carries one qualifying difference,
`execute` shows the error message but then keeps going — it removes the
loader (leaving the Loading state) and produces a non-empty row list;
and on a null provider result it throws while interpolating the error
message instead of showing it. Both contradict the claim that the panel
stays in the Loading/empty state with no rows. -/
theorem execute_failure_still_renders :
    executeModel (some failedComparison) loadingPanelW = Except.ok failedRunPanelW ∧
      PanelItem.loader ∉ failedRunPanelW.flexItems ∧
      failedRunPanelW.tableData ≠ [] ∧
      failedRunPanelW.errorMessages = [compareErrorText (some "boom")] ∧
      compareErrorText (some "boom") = "Schema Compare failed 'boom'" ∧
      executeModel none loadingPanelW = Except.error "TypeError: comparisonResult is null" :=
  ⟨rfl, by decide, by decide, rfl, rfl, rfl⟩

/-- Claim C8: both the compare and the switch-direction handlers, via
`reExecute`, remove the result surfaces (split view with the table, and
the no-differences label), show the loader, reset both diff panes to
the newline sentinel, clear the row selection, disable the compare,
switch and generate-script buttons, and invoke `execute` once more. -/
theorem loading_transition_clears_and_disables (st : PanelState) :
    (PanelItem.splitView ∉ (compareButtonClick st).flexItems ∧
      PanelItem.noDifferencesLabel ∉ (compareButtonClick st).flexItems ∧
      PanelItem.loader ∈ (compareButtonClick st).flexItems ∧
      (compareButtonClick st).diffContentLeft = "\n" ∧
      (compareButtonClick st).diffContentRight = "\n" ∧
      (compareButtonClick st).selectedRows = none ∧
      (compareButtonClick st).compareEnabled = false ∧
      (compareButtonClick st).switchEnabled = false ∧
      (compareButtonClick st).generateScriptEnabled = false ∧
      (compareButtonClick st).executeCalls = st.executeCalls + 1) ∧
    (PanelItem.splitView ∉ (switchButtonClick st).flexItems ∧
      PanelItem.noDifferencesLabel ∉ (switchButtonClick st).flexItems ∧
      PanelItem.loader ∈ (switchButtonClick st).flexItems ∧
      (switchButtonClick st).diffContentLeft = "\n" ∧
      (switchButtonClick st).diffContentRight = "\n" ∧
      (switchButtonClick st).selectedRows = none ∧
      (switchButtonClick st).compareEnabled = false ∧
      (switchButtonClick st).switchEnabled = false ∧
      (switchButtonClick st).generateScriptEnabled = false ∧
      (switchButtonClick st).executeCalls = st.executeCalls + 1) :=
  ⟨reExecuteModel_spec st, reExecuteModel_spec _⟩

/-- Claim C9: for every target name and every current time whose
calendar month is at least one, the default destination filename is
`<targetName>_Update_<year>-<month>-<day>-<hour>-<minute>.sql` with the
month rendered as the one-based month number. -/
theorem default_filename_timestamp_format (targetName : String) (now : JSDate)
    (hmonth : 1 ≤ now.month) :
    defaultScriptFileName targetName now =
      targetName ++ "_Update_" ++ toString now.year ++ "-" ++ toString now.month ++ "-" ++
        toString now.day ++ "-" ++ toString now.hour ++ "-" ++ toString now.minute ++ ".sql" := by
  unfold defaultScriptFileName JSDate.getMonth
  rw [Nat.sub_add_cancel hmonth]
  simp [string_append_assoc]

/-- Claim C9, witness: at 2019-03-07 14:05 the default filename for
target "tgt" is "tgt_Update_2019-3-7-14-5.sql". -/
theorem default_filename_timestamp_format_witness :
    1 ≤ (JSDate.mk 2019 3 7 14 5).month ∧
      defaultScriptFileName "tgt" (JSDate.mk 2019 3 7 14 5) = "tgt_Update_2019-3-7-14-5.sql" :=
  ⟨by decide, by
    rw [default_filename_timestamp_format "tgt" (JSDate.mk 2019 3 7 14 5) (by decide)]
    rfl⟩

/-- Claim C10: the generate-script button is created disabled, is
re-disabled by every `reExecute` regardless of endpoint type, and after
a completed `execute` run starting from the disabled state it is
enabled exactly when the target endpoint is a database. -/
theorem generate_script_enabled_iff_database_target :
    (∀ (sourceName targetName : String) (sourceIsDatabase targetIsDatabase : Bool),
        (initialPanelState sourceName targetName sourceIsDatabase
          targetIsDatabase).generateScriptEnabled = false) ∧
      (∀ st : PanelState, (reExecuteModel st).generateScriptEnabled = false) ∧
      (∀ (st : PanelState) (r : ComparisonResult) (st' : PanelState),
        st.generateScriptEnabled = false →
        executeModel (some r) st = Except.ok st' →
        (st'.generateScriptEnabled = true ↔ st.targetIsDatabase = true)) := by
  refine ⟨fun _ _ _ _ => rfl, fun st => rfl, fun st r st' hgen hexec => ?_⟩
  rw [executeModel_generate r st st' hexec, hgen]
  cases hdb : st.targetIsDatabase <;> simp

/-- Claim C10, witness: from the loading panel with a database target
and the button disabled, the failed-comparison run enables the button,
matching the database-target condition. -/
theorem generate_script_enabled_iff_database_target_witness :
    loadingPanelW.generateScriptEnabled = false ∧
      executeModel (some failedComparison) loadingPanelW = Except.ok failedRunPanelW ∧
      (failedRunPanelW.generateScriptEnabled = true ↔ loadingPanelW.targetIsDatabase = true) :=
  ⟨rfl, rfl,
    generate_script_enabled_iff_database_target.2.2 loadingPanelW failedComparison
      failedRunPanelW rfl rfl⟩

end SchemaCompare
